import Mathlib

/-!
Shallow embedding of `ibis/connection.py`: the SQL connection façade, the
Impala retrying executor, the schema probe, the default-limit query planner
and the driver-type adapter, together with theorems checking the
specification's claims about them.  External collaborators (the expression
library, the AST compiler, the driver) are modelled at the interface the
specification gives for them; everything else is translated directly from
the source.
-/

/-- Python exceptions the embedded code can raise: the driver's transient
`DatabaseError`, Python's `UnboundLocalError` (a local variable read before
assignment), and `NotImplementedError`. -/
inductive PyError
  | databaseError
  | unboundLocalError
  | notImplementedError
  deriving DecidableEq

/-- Models `_set_limit(query, k)`: formats `query` followed by a newline and
a `LIMIT k` clause, unconditionally. -/
def set_limit (query : String) (k : Nat) : String :=
  query ++ "\nLIMIT " ++ toString k

/-- Number of positions of a character list at which `pat` occurs. -/
def count_occurrences (pat : List Char) : List Char → Nat
  | [] => 0
  | c :: rest =>
    (if List.isPrefixOf pat (c :: rest) then 1 else 0) + count_occurrences pat rest

/-- A logical column type as produced by `_adapt_types`: either one of the
bare type-name strings of the mapping table, or a parameterized decimal
(models `ir.DecimalType(precision, scale)`). -/
inductive AdaptedType
  | named (t : String)
  | decimalType (precision scale : Nat)
  deriving DecidableEq

/-- A driver cursor-description entry, with the positions `_adapt_types`
reads: `col[0]` is the column name, `col[1]` the driver type name, and
`col[4]`, `col[5]` precision and scale. -/
structure ColumnDescriptor where
  name : String
  type_name : String
  precision : Nat
  scale : Nat
  deriving DecidableEq

/-- Models the `_impala_type_mapping` dict literal. -/
def impala_type_mapping : List (String × String) :=
  [("boolean", "boolean"), ("tinyint", "int8"), ("smallint", "int16"),
   ("int", "int32"), ("bigint", "int64"), ("float", "float"),
   ("double", "double"), ("string", "string"), ("timestamp", "timestamp"),
   ("decimal", "decimal")]

/-- Python's `str.lower()` on the ASCII type names the driver reports,
written over the character list so it evaluates in the kernel. -/
def py_lower (s : String) : String :=
  String.mk (s.data.map Char.toLower)

/-- Python dict lookup: `d[key]` succeeds exactly when the key is present. -/
def dict_get (key : String) : List (String × String) → Option String
  | [] => none
  | (k, v) :: rest => if key = k then some v else dict_get key rest

/-- Models `ImpalaConnection._adapt_types(descr)`: for each descriptor in
order, look up the lowercased driver type name in `_impala_type_mapping`
(a missing key raises `KeyError`, modelled as `Except.error` carrying the
key); a `decimal` entry is turned into a parameterized decimal from the
descriptor's positions 4 and 5.  Names and adapted types are accumulated in
input order. -/
def adapt_types : List ColumnDescriptor → Except String (List String × List AdaptedType)
  | [] => Except.ok ([], [])
  | col :: rest =>
    match dict_get (py_lower col.type_name) impala_type_mapping with
    | none => Except.error (py_lower col.type_name)
    | some typename =>
      let adapted := if typename = "decimal"
        then AdaptedType.decimalType col.precision col.scale
        else AdaptedType.named typename
      match adapt_types rest with
      | Except.error e => Except.error e
      | Except.ok (names, types) => Except.ok (col.name :: names, adapted :: types)

/-- Modelled from the spec: a logical Schema is an ordered sequence of
column names and logical types (`ir.Schema(names, types)`; the class itself
lives in the expression library, outside this file's source). -/
abbrev Schema := List String × List AdaptedType

/-- Modelled from the spec: the table-reference expression node returned by
`table` (`ops.DatabaseTable(name, schema, connection)` wrapped in
`ir.TableExpr`; both classes live in the expression library).  The owning
connection is identified by a numeric id. -/
structure DatabaseTableNode where
  name : String
  schema : Schema
  con : Nat

/-- Modelled from the spec: the query-result expression node returned by
`sql` (`ops.SQLQueryResult(query, schema, connection)` wrapped in
`ir.TableExpr`). -/
structure SQLQueryResultNode where
  query : String
  schema : Schema
  con : Nat

/-- Models `SQLConnection.table(name, database)`: a non-null `database`
raises `NotImplementedError` before any schema probe; otherwise the schema
is probed through `_get_table_schema` and wrapped as a `DatabaseTable`
expression node.  The second component records which table names had their
schema probed. -/
def SQLConnection_table (get_table_schema : String → Schema) (conId : Nat)
    (name : String) (database : Option String) :
    Except PyError DatabaseTableNode × List String :=
  match database with
  | some _ => (Except.error PyError.notImplementedError, [])
  | none => (Except.ok ⟨name, get_table_schema name, conId⟩, [name])

/-- Models `SQLConnection.sql(query)`: probes the schema of
`_set_limit(query, 0)` and wraps the original query text as a
`SQLQueryResult` node.  The second component records the probe query
actually issued to `_get_schema_using_query`. -/
def SQLConnection_sql (get_schema_using_query : String → Schema) (conId : Nat)
    (query : String) : SQLQueryResultNode × List String :=
  let limited_query := set_limit query 0
  (⟨query, get_schema_using_query limited_query, conId⟩, [limited_query])

/-- Modelled from the spec: a compiled SELECT-like statement unit
(`ddl.Select`, produced by the external AST compiler) with its SQL text, its
optional limit marker and its optional result-handler hook.  Materialized
tabular results are identified by natural numbers. -/
structure Select where
  sql_string : String
  limit : Option Nat
  result_handler : Option (Nat → Nat)

/-- Modelled from the spec: one compiled statement unit of a query plan;
either a SELECT-like unit or another (DDL-like) statement. -/
inductive QueryUnit
  | select (s : Select)
  | ddlStmt (sql_string : String)

/-- Models `query.compile()`. -/
def QueryUnit.compile : QueryUnit → String
  | QueryUnit.select s => s.sql_string
  | QueryUnit.ddlStmt t => t

/-- Models `isinstance(query, ddl.Select)`. -/
def QueryUnit.is_select : QueryUnit → Bool
  | QueryUnit.select _ => true
  | QueryUnit.ddlStmt _ => false

/-- The limit marker of a unit (`query.limit`); `none` on non-SELECT units. -/
def QueryUnit.limit_of : QueryUnit → Option Nat
  | QueryUnit.select s => s.limit
  | QueryUnit.ddlStmt _ => none

/-- True exactly on SELECT units whose limit marker is `None`. -/
def QueryUnit.is_limitless_select : QueryUnit → Bool
  | QueryUnit.select s => s.limit.isNone
  | QueryUnit.ddlStmt _ => false

/-- Modelled from the spec: a compiled query plan (the output shape of
`sql.build_ast`): an ordered sequence of statement units. -/
structure Ast where
  queries : List QueryUnit

/-- The `for query in ast.queries` loop of `_build_ast_ensure_limit`.  The
iteration ranges over the units of the ORIGINAL plan even though `ast` is
rebound inside the loop body.  Each SELECT unit whose limit is `None`
rewrites the current expression with `options.sql.default_limit` and
recompiles it.  The state is the current plan, the current expression and
the number of `sql.build_ast` calls made so far. -/
def ensure_limit_loop {E : Type} (build_ast : E → Ast) (limitOp : E → Nat → E)
    (options_sql_default_limit : Nat) :
    List QueryUnit → Ast × E × Nat → Ast × E × Nat
  | [], st => st
  | q :: rest, st =>
    match q with
    | QueryUnit.select s =>
      match s.limit with
      | none =>
        let e' := limitOp st.2.1 options_sql_default_limit
        ensure_limit_loop build_ast limitOp options_sql_default_limit rest
          (build_ast e', e', st.2.2 + 1)
      | some _ => ensure_limit_loop build_ast limitOp options_sql_default_limit rest st
    | QueryUnit.ddlStmt _ =>
      ensure_limit_loop build_ast limitOp options_sql_default_limit rest st

/-- Models `SQLConnection._build_ast_ensure_limit(expr, default_limit)` over
an abstract expression type `E` equipped with its compiler `build_ast`
(`sql.build_ast`), its limit rewriter `limitOp` (`expr.limit(k)`) and its
table-expression test (`isinstance(expr, ir.TableExpr)`);
`options_sql_default_limit` is the process-wide `options.sql.default_limit`
the loop body reads.  Returns the final plan and expression together with
the number of `sql.build_ast` compilations performed. -/
def build_ast_ensure_limit {E : Type} (build_ast : E → Ast) (limitOp : E → Nat → E)
    (is_table_expr : E → Bool) (options_sql_default_limit : Nat)
    (expr : E) (default_limit : Option Nat) : Ast × E × Nat :=
  if default_limit.isSome && is_table_expr expr then
    ensure_limit_loop build_ast limitOp options_sql_default_limit
      (build_ast expr).queries (build_ast expr, expr, 1)
  else
    (build_ast expr, expr, 1)

/-- Applies `query.result_handler` to a materialized result when present. -/
def apply_handler (s : Select) (result : Nat) : Nat :=
  match s.result_handler with
  | some h => h result
  | none => result

/-- The `for query in ast.queries` loop of `SQLConnection.execute`: every
unit is compiled and executed and its cursor materialized (`fetch`); SELECT
units additionally pass the materialized result through their handler and
overwrite `output`.  Returns the executed SQL strings in order paired with
the final `output`. -/
def execute_loop (fetch : String → Nat) :
    List QueryUnit → Option Nat → List String × Option Nat
  | [], output => ([], output)
  | q :: rest, output =>
    let sql_string := QueryUnit.compile q
    let result := fetch sql_string
    let output' := match q with
      | QueryUnit.select s => some (apply_handler s result)
      | QueryUnit.ddlStmt _ => output
    let next := execute_loop fetch rest output'
    (sql_string :: next.1, next.2)

/-- Models the execution phase of `SQLConnection.execute`: runs every unit
of the compiled plan in order starting from `output = None` and returns the
executed SQL strings together with the value `execute` returns. -/
def SQLConnection_execute (fetch : String → Nat) (queries : List QueryUnit) :
    List String × Option Nat :=
  execute_loop fetch queries none

/-- The handled materialized result of the last SELECT unit of a plan, when
one exists. -/
def last_select_result (fetch : String → Nat) : List QueryUnit → Option Nat
  | [] => none
  | q :: rest =>
    match last_select_result fetch rest with
    | some r => some r
    | none =>
      match q with
      | QueryUnit.select s => some (apply_handler s (fetch s.sql_string))
      | QueryUnit.ddlStmt _ => none

/-- Observable driver-side state while `ImpalaConnection._execute` runs: the
number of `con.cursor()` calls made, the number of `_connect()` reconnects,
the `(cursor id, query)` pairs submitted through `cursor.execute`, and the
cursor ids drained by `cursor.fetchall()`.  A cursor is identified by the
index of the acquisition attempt that produced it. -/
structure DriverState where
  attempts : Nat
  reconnects : Nat
  executed : List (Nat × String)
  fetched : List Nat
  deriving DecidableEq

/-- Models `ImpalaConnection._execute(query, retries)` against a driver
stub: `failsOn n` tells whether the n-th `con.cursor()` call (0-based,
counted in `DriverState.attempts`) raises the transient `DatabaseError`.
On such a failure with `retries > 0` the source reconnects and calls
`self._fetchall(query, retries - 1)` — which recursively `_execute`s the
query and then drains the resulting cursor — discards the fetched rows, and
then falls through to `cursor.execute(query)` where the local `cursor` was
never assigned, raising `UnboundLocalError`.  With `retries == 0` the
`DatabaseError` is re-raised. -/
def ImpalaConnection_execute (failsOn : Nat → Bool) (query : String) :
    Nat → DriverState → Except PyError Nat × DriverState
  | retries, st =>
    let attemptId := st.attempts
    let st1 : DriverState := { st with attempts := st.attempts + 1 }
    if failsOn attemptId then
      match retries with
      | Nat.succ r =>
        let st2 : DriverState := { st1 with reconnects := st1.reconnects + 1 }
        match ImpalaConnection_execute failsOn query r st2 with
        | (Except.ok c, st3) =>
          (Except.error PyError.unboundLocalError,
           { st3 with fetched := st3.fetched ++ [c] })
        | (Except.error e, st3) => (Except.error e, st3)
      | 0 => (Except.error PyError.databaseError, st1)
    else
      (Except.ok attemptId,
       { st1 with executed := st1.executed ++ [(attemptId, query)] })

/-- C1: the schema probe for a query text that already ends in a `LIMIT 5`
clause is NOT bounded to zero rows by a single limiting clause: `_set_limit`
appends `LIMIT 0` unconditionally, so the probe query issued by
`SQLConnection.sql` keeps the existing `LIMIT 5` and stacks a second clause
(two occurrences of `LIMIT`), contradicting the claim and the source's own
comment that an existing limit is found and removed. -/
theorem c1_probe_stacks_limit_clauses :
    (SQLConnection_sql (fun _ => ([], [])) 0 "SELECT a,b FROM t LIMIT 5").2
        = ["SELECT a,b FROM t LIMIT 5\nLIMIT 0"]
      ∧ count_occurrences "LIMIT".data "SELECT a,b FROM t LIMIT 5\nLIMIT 0".data = 2 :=
  ⟨rfl, by decide⟩

/-- C2: planning an expression with no existing limit and `default_limit =
some 10` injects `options.sql.default_limit` (here 5), not the supplied
parameter: `_build_ast_ensure_limit` only tests the parameter for
non-`None`-ness and reads the injected value from the process-wide global,
so the resulting SELECT unit's limit is 5, not 10. -/
theorem c2_limit_read_from_global :
    ((build_ast_ensure_limit
          (fun e : Option Nat =>
            Ast.mk [QueryUnit.select ⟨"SELECT * FROM t", e, none⟩])
          (fun _ k => some k) (fun _ => true) 5 none (some 10)).1.queries.map
        QueryUnit.limit_of = [some 5])
      ∧ (some 5 : Option Nat) ≠ some 10 :=
  ⟨rfl, by decide⟩

/-- C3: with a driver stub whose first cursor acquisition raises the
transient error and whose second succeeds, `_execute` with `retries = 3`
does NOT return the cursor of the submitted query: it reconnects once,
executes and drains the query through `_fetchall` on the new connection,
discards those rows, and then raises `UnboundLocalError` on the fall-through
`cursor.execute(query)` in the original frame. -/
theorem c3_retry_crashes_after_reconnect :
    ImpalaConnection_execute (fun n => n == 0) "SELECT 1" 3 ⟨0, 0, [], []⟩
      = (Except.error PyError.unboundLocalError, ⟨2, 1, [(1, "SELECT 1")], [1]⟩) :=
  rfl

/-- C4: against a driver stub that always raises the transient error on
cursor acquisition, `_execute` with `retries = 3` makes exactly 4
cursor-acquisition attempts (the initial one plus 3 retries, one reconnect
before each retry) and then raises, propagating the original
`DatabaseError` rather than swallowing it; no query is ever submitted. -/
theorem c4_retry_exhaustion (query : String) (failsOn : Nat → Bool)
    (h : ∀ n, failsOn n = true) :
    ImpalaConnection_execute failsOn query 3 ⟨0, 0, [], []⟩
      = (Except.error PyError.databaseError, ⟨4, 3, [], []⟩) := by
  have hf : failsOn = fun _ => true := funext h
  subst hf
  rfl

/-- C4 witness: the retry-exhaustion theorem at the constantly failing stub. -/
theorem c4_retry_exhaustion_witness :
    ImpalaConnection_execute (fun _ => true) "SELECT 1" 3 ⟨0, 0, [], []⟩
      = (Except.error PyError.databaseError, ⟨4, 3, [], []⟩) :=
  c4_retry_exhaustion "SELECT 1" (fun _ => true) (fun _ => rfl)

/-- When no unit of `qs` is a limit-less SELECT, the ensure-limit loop is
the identity on its state. -/
theorem ensure_limit_loop_no_op {E : Type} (build_ast : E → Ast)
    (limitOp : E → Nat → E) (g : Nat) :
    ∀ (qs : List QueryUnit) (st : Ast × E × Nat),
      (∀ q ∈ qs, QueryUnit.is_limitless_select q = false) →
      ensure_limit_loop build_ast limitOp g qs st = st
  | [], _, _ => rfl
  | QueryUnit.select s :: rest, st, h => by
    have hq := h _ (List.mem_cons_self _ _)
    cases hs : s.limit with
    | none => simp [QueryUnit.is_limitless_select, hs] at hq
    | some k =>
      simp only [ensure_limit_loop, hs]
      exact ensure_limit_loop_no_op build_ast limitOp g rest st
        (fun x hx => h x (List.mem_cons_of_mem _ hx))
  | QueryUnit.ddlStmt t :: rest, st, h => by
    simp only [ensure_limit_loop]
    exact ensure_limit_loop_no_op build_ast limitOp g rest st
      (fun x hx => h x (List.mem_cons_of_mem _ hx))

/-- C5: when every SELECT unit of the compiled plan already carries an
explicit limit, `_build_ast_ensure_limit` with any non-null `default_limit`
returns the original plan and the original expression and performs exactly
one `sql.build_ast` compilation: no limit rewrite and no recompilation
occur. -/
theorem c5_already_limited_no_op {E : Type} (build_ast : E → Ast)
    (limitOp : E → Nat → E) (is_table_expr : E → Bool) (g : Nat) (expr : E)
    (default_limit : Option Nat) (_hdl : default_limit.isSome = true)
    (h : ∀ q ∈ (build_ast expr).queries, QueryUnit.is_limitless_select q = false) :
    build_ast_ensure_limit build_ast limitOp is_table_expr g expr default_limit
      = (build_ast expr, expr, 1) := by
  unfold build_ast_ensure_limit
  by_cases hc : (default_limit.isSome && is_table_expr expr) = true
  · rw [if_pos hc]
    exact ensure_limit_loop_no_op build_ast limitOp g _ _ h
  · rw [if_neg hc]

/-- C5 witness: a one-SELECT plan already carrying limit 5, planned with
defaultLimit 10 and global default 7. -/
theorem c5_already_limited_no_op_witness :
    build_ast_ensure_limit
        (fun _ : Nat => Ast.mk [QueryUnit.select ⟨"SELECT * FROM t", some 5, none⟩])
        (fun e _ => e + 1) (fun _ => true) 7 0 (some 10)
      = (Ast.mk [QueryUnit.select ⟨"SELECT * FROM t", some 5, none⟩], 0, 1) :=
  c5_already_limited_no_op
    (fun _ : Nat => Ast.mk [QueryUnit.select ⟨"SELECT * FROM t", some 5, none⟩])
    (fun e _ => e + 1) (fun _ => true) 7 0 (some 10) rfl
    (by
      intro q hq
      rw [List.mem_singleton] at hq
      subst hq
      rfl)

/-- Adaptation of a single descriptor, as `_adapt_types` performs it when the
lowercased type name resolves in the mapping table (used to state C6). -/
def adapt_one (c : ColumnDescriptor) : AdaptedType :=
  match dict_get (py_lower c.type_name) impala_type_mapping with
  | some t =>
    if t = "decimal" then AdaptedType.decimalType c.precision c.scale
    else AdaptedType.named t
  | none => AdaptedType.named c.type_name

/-- C6: when every descriptor's lowercased driver-type name is in the static
mapping table, `_adapt_types` succeeds and returns the column names and the
table-mapped logical types in exactly the input order, with no reordering or
deduplication; decimal descriptors carry their precision and scale
unchanged. -/
theorem c6_type_mapping_total (descr : List ColumnDescriptor)
    (h : ∀ c ∈ descr,
      (dict_get (py_lower c.type_name) impala_type_mapping).isSome = true) :
    adapt_types descr
      = Except.ok (descr.map ColumnDescriptor.name, descr.map adapt_one) := by
  induction descr with
  | nil => rfl
  | cons c rest ih =>
    have hc := h c (List.mem_cons_self c rest)
    have hrest := ih (fun x hx => h x (List.mem_cons_of_mem c hx))
    obtain ⟨t, ht⟩ := Option.isSome_iff_exists.mp hc
    simp only [adapt_types, ht, hrest, List.map_cons, adapt_one]

/-- C6 witness: one descriptor per mapping-table entry, with mixed-case type
names and a parameterized decimal. -/
theorem c6_type_mapping_total_witness :
    adapt_types
        [⟨"c0", "BOOLEAN", 0, 0⟩, ⟨"c1", "tinyint", 0, 0⟩,
         ⟨"c2", "Smallint", 0, 0⟩, ⟨"c3", "int", 0, 0⟩, ⟨"c4", "bigint", 0, 0⟩,
         ⟨"c5", "float", 0, 0⟩, ⟨"c6", "double", 0, 0⟩, ⟨"c7", "string", 0, 0⟩,
         ⟨"c8", "timestamp", 0, 0⟩, ⟨"c9", "DECIMAL", 9, 2⟩]
      = Except.ok
          (["c0", "c1", "c2", "c3", "c4", "c5", "c6", "c7", "c8", "c9"],
           [AdaptedType.named "boolean", AdaptedType.named "int8",
            AdaptedType.named "int16", AdaptedType.named "int32",
            AdaptedType.named "int64", AdaptedType.named "float",
            AdaptedType.named "double", AdaptedType.named "string",
            AdaptedType.named "timestamp", AdaptedType.decimalType 9 2]) :=
  c6_type_mapping_total _ (by decide)

/-- C7: a descriptor list containing a driver-type name absent from the
mapping table makes `_adapt_types` raise (`KeyError`, modelled as
`Except.error`): no partial list of names or types is returned, not even for
the descriptors preceding the unknown one. -/
theorem c7_unknown_type_fails_closed (descr : List ColumnDescriptor)
    (h : ∃ c ∈ descr, dict_get (py_lower c.type_name) impala_type_mapping = none) :
    ∃ msg, adapt_types descr = Except.error msg := by
  induction descr with
  | nil => exact absurd h (by simp)
  | cons c rest ih =>
    rcases h with ⟨x, hx, hnone⟩
    rcases List.mem_cons.mp hx with hxc | hxr
    · subst hxc
      exact ⟨(py_lower x.type_name), by simp [adapt_types, hnone]⟩
    · cases hd : dict_get (py_lower c.type_name) impala_type_mapping with
      | none => exact ⟨(py_lower c.type_name), by simp [adapt_types, hd]⟩
      | some t =>
        obtain ⟨msg, hmsg⟩ := ih ⟨x, hxr, hnone⟩
        exact ⟨msg, by simp [adapt_types, hd, hmsg]⟩

/-- C7 witness: a known boolean column followed by an unknown varchar one. -/
theorem c7_unknown_type_fails_closed_witness :
    ∃ msg, adapt_types [⟨"a", "boolean", 0, 0⟩, ⟨"b", "varchar", 10, 0⟩]
      = Except.error msg :=
  c7_unknown_type_fails_closed _ ⟨⟨"b", "varchar", 10, 0⟩, by decide, by decide⟩

/-- C8: `table(name, database)` with any non-null `database` raises
(`NotImplementedError`, the operation-unsupported error) before any schema
probe and constructs no table expression; with a null `database` it returns
the `DatabaseTable` expression node carrying the name, the probed schema and
the owning connection, having probed exactly that table's schema. -/
theorem c8_table_database_rejected (get_table_schema : String → Schema)
    (conId : Nat) (name : String) :
    (∀ db : String,
        SQLConnection_table get_table_schema conId name (some db)
          = (Except.error PyError.notImplementedError, []))
      ∧ SQLConnection_table get_table_schema conId name none
          = (Except.ok ⟨name, get_table_schema name, conId⟩, [name]) :=
  ⟨fun _ => rfl, rfl⟩

/-- Unfolding of the execute loop: it executes every unit in order, and its
final output is the last SELECT unit's handled result, or the incoming
accumulator when no SELECT unit occurs. -/
theorem execute_loop_spec (fetch : String → Nat) :
    ∀ (qs : List QueryUnit) (out : Option Nat),
      execute_loop fetch qs out
        = (qs.map QueryUnit.compile,
           match last_select_result fetch qs with
           | some r => some r
           | none => out)
  | [], _ => rfl
  | QueryUnit.select s :: rest, out => by
    simp only [execute_loop, execute_loop_spec fetch rest, last_select_result,
      List.map_cons, QueryUnit.compile]
    cases last_select_result fetch rest <;> rfl
  | QueryUnit.ddlStmt t :: rest, out => by
    simp only [execute_loop, execute_loop_spec fetch rest, last_select_result,
      List.map_cons, QueryUnit.compile]
    cases last_select_result fetch rest <;> rfl

/-- C9 counterexample: for the two-unit plan [SELECT "S1"; DROP TABLE u]
with cursor materialization by SQL-text length, `execute` returns the FIRST
unit's materialized result (2, the length of "S1"), which differs from the
last statement's materialized cursor (12, the length of "DROP TABLE u"):
the returned result does not correspond to the last statement when that
statement is not a SELECT. -/
theorem c9_counterexample :
    (SQLConnection_execute String.length
          [QueryUnit.select ⟨"S1", none, none⟩,
           QueryUnit.ddlStmt "DROP TABLE u"]).2
        = some (String.length "S1")
      ∧ String.length "S1" = 2 ∧ String.length "DROP TABLE u" = 12
      ∧ (some 2 : Option Nat) ≠ some 12 :=
  ⟨rfl, rfl, rfl, by decide⟩

/-- C9 (amended): `SQLConnection.execute` executes every plan unit in order
and returns the materialized, handler-processed result of the last SELECT
unit of the plan — not of the last statement unit in general — and `none`
when the plan has no SELECT unit; all other units run purely for side
effects. -/
theorem c9_last_select_result (fetch : String → Nat) (qs : List QueryUnit) :
    SQLConnection_execute fetch qs
      = (qs.map QueryUnit.compile, last_select_result fetch qs) := by
  show execute_loop fetch qs none = _
  rw [execute_loop_spec fetch qs none]
  cases last_select_result fetch qs <;> rfl

/-- A plan without SELECT units has no last SELECT result. -/
theorem last_select_result_none (fetch : String → Nat) :
    ∀ qs : List QueryUnit, (∀ q ∈ qs, QueryUnit.is_select q = false) →
      last_select_result fetch qs = none
  | [], _ => rfl
  | QueryUnit.select s :: rest, h => by
    have hq := h _ (List.mem_cons_self _ _)
    simp [QueryUnit.is_select] at hq
  | QueryUnit.ddlStmt t :: rest, h => by
    simp only [last_select_result,
      last_select_result_none fetch rest
        (fun x hx => h x (List.mem_cons_of_mem _ hx))]

/-- C10: when no unit of the compiled plan is a SELECT, `execute` still runs
every unit in order but returns `None`: only SELECT units ever supply the
returned materialized result. -/
theorem c10_no_select_returns_none (fetch : String → Nat) (qs : List QueryUnit)
    (h : ∀ q ∈ qs, QueryUnit.is_select q = false) :
    SQLConnection_execute fetch qs = (qs.map QueryUnit.compile, none) := by
  show execute_loop fetch qs none = _
  rw [execute_loop_spec fetch qs none, last_select_result_none fetch qs h]

/-- C10 witness: a two-unit pure-DDL plan executes both units and returns
`none`. -/
theorem c10_no_select_returns_none_witness :
    SQLConnection_execute (fun _ => 0)
        [QueryUnit.ddlStmt "CREATE TABLE t", QueryUnit.ddlStmt "DROP TABLE t"]
      = (["CREATE TABLE t", "DROP TABLE t"], none) :=
  c10_no_select_returns_none (fun _ => 0)
    [QueryUnit.ddlStmt "CREATE TABLE t", QueryUnit.ddlStmt "DROP TABLE t"]
    (by
      intro q hq
      rcases List.mem_cons.mp hq with hq1 | hq
      · subst hq1; rfl
      · rcases List.mem_cons.mp hq with hq2 | hq
        · subst hq2; rfl
        · exact absurd hq (List.not_mem_nil q))
